import Mathlib

/-!
Shallow embedding of `datetime-default` (file `src/datetime_default_now.rs`).

The crate wraps a chrono `DateTime<Tz>` in the tuple struct
`DateTimeDefaultNow<Tz, const OFFSET_HOURS: i32>` and gives it a `Default`
that reads the current clock, plus delegation impls (`Deref`, `From`,
`PartialEq`, `PartialOrd`).

Modelling choices, traceable to the source and to chrono 0.4 (the external
date-time library, spec section 6):
* A chrono `DateTime<Tz>` stores a naive UTC timestamp plus the zone offset;
  its `PartialEq`/`PartialOrd` compare only the naive UTC timestamp.  We model
  it as `DateTime`: an `instant` (nanoseconds since the Unix epoch, naive UTC)
  and an `offset` (seconds east of UTC).
* `Local` is modelled as a fixed (but arbitrary, universally quantified)
  offset `localOff` in seconds east of UTC; daylight-saving transitions are
  outside the frozen instants exercised here.
* Clock reads (`Utc::now()`, `Local::now()`) are modelled by passing the
  clock value `now` (nanoseconds since the epoch) explicitly.
* Panics (`FixedOffset::east` out of bounds, `unwrap` of a failed parse) are
  modelled by `Option`: `none` is an uncaught process-terminating failure.
* `OFFSET_HOURS * 3600` is `i32` multiplication.  We model the release-profile
  (wrapping) semantics with `mul32`; `checked_mul_i32` records the
  debug-profile (overflow-panicking) semantics for comparison.
-/

namespace DatetimeDefault

/-- Civil (calendar) date-time fields, as produced by the chrono parser for the
format string `%Y/%m/%d %H:%M:%S%.9f` used in the test builds. -/
structure NaiveDateTime where
  year : Int
  month : Int
  day : Int
  hour : Int
  minute : Int
  second : Int
  nanosecond : Int
deriving DecidableEq

/-- Gregorian leap-year test, as in the chrono calendar arithmetic. -/
def is_leap_year (y : Int) : Bool :=
  y % 4 == 0 && (y % 100 != 0 || y % 400 == 0)

/-- Length of month `m` of year `y`. -/
def days_in_month (y m : Int) : Int :=
  if m = 2 then (if is_leap_year y then 29 else 28)
  else if m = 4 ∨ m = 6 ∨ m = 9 ∨ m = 11 then 30
  else 31

/-- Range validity of parsed civil fields: the chrono parse-and-resolve fails
(and the `unwrap` in the source panics) exactly when a field is out of range. -/
def NaiveDateTime.valid (n : NaiveDateTime) : Prop :=
  1 ≤ n.month ∧ n.month ≤ 12 ∧ 1 ≤ n.day ∧ n.day ≤ days_in_month n.year n.month ∧
  0 ≤ n.hour ∧ n.hour < 24 ∧ 0 ≤ n.minute ∧ n.minute < 60 ∧
  0 ≤ n.second ∧ n.second < 60 ∧ 0 ≤ n.nanosecond ∧ n.nanosecond < 1000000000

instance (n : NaiveDateTime) : Decidable n.valid := by
  unfold NaiveDateTime.valid; infer_instance

/-- Days from the Unix epoch to civil date `y-m-d` (standard civil-calendar
algorithm, as used by the chrono `NaiveDate` representation).  All intermediate
quantities are nonnegative for the post-1970 dates used here. -/
def days_from_civil (y m d : Int) : Int :=
  let yy := if m ≤ 2 then y - 1 else y
  let era := yy / 400
  let yoe := yy - era * 400
  let mp := (m + 9) % 12
  let doy := (153 * mp + 2) / 5 + d - 1
  let doe := yoe * 365 + yoe / 4 - yoe / 100 + doy
  era * 146097 + doe - 719468

/-- Nanoseconds since the Unix epoch of a civil date-time read as naive UTC. -/
def NaiveDateTime.toNanos (n : NaiveDateTime) : Int :=
  ((days_from_civil n.year n.month n.day) * 86400
      + n.hour * 3600 + n.minute * 60 + n.second) * 1000000000
    + n.nanosecond

/-- Model of chrono `DateTime<Tz>`: the absolute instant (naive UTC,
nanoseconds since the Unix epoch) plus the zone offset in seconds east of
UTC.  the chrono `PartialEq` and `PartialOrd` on `DateTime` compare only the
instant, never the offset. -/
structure DateTime where
  instant : Int
  offset : Int
deriving DecidableEq

/-- chrono `DateTime` equality: compares the naive UTC instants. -/
def DateTime.eqb (a b : DateTime) : Bool :=
  a.instant == b.instant

/-- chrono `DateTime` comparison (`PartialOrd::partial_cmp`): compares the
naive UTC instants; always `some` because the instant order is total. -/
def DateTime.cmpRaw (a b : DateTime) : Option Ordering :=
  some (compare a.instant b.instant)

/-- Rust derives `a <= b` from `partial_cmp` as
`matches!(partial_cmp(a, b), Some(Less | Equal))`. -/
def le_of_cmp : Option Ordering → Bool
  | some Ordering.lt => true
  | some Ordering.eq => true
  | _ => false

/-- chrono `DateTime::with_timezone`: same absolute instant, re-expressed
under the given offset. -/
def DateTime.with_timezone (dt : DateTime) (off : Int) : DateTime :=
  ⟨dt.instant, off⟩

/-- The wrapper `DateTimeDefaultNow<Tz, const OFFSET_HOURS: i32>(DateTime<Tz>)`
(source lines 19-23).  The zone tag `Tz` is reflected in the offset of the
wrapped `DateTime`; the const parameter `OFFSET_HOURS` indexes the type. -/
structure DateTimeDefaultNow (OFFSET_HOURS : Int) where
  val : DateTime
deriving DecidableEq

/-- `impl From<DateTime<Tz>> for DateTimeDefaultNow<Tz, OFFSET_HOURS>`
(source lines 74-82): `Self(datetime)`. -/
def from_datetime (OFFSET_HOURS : Int) (t : DateTime) :
    DateTimeDefaultNow OFFSET_HOURS :=
  ⟨t⟩

/-- `impl Deref` (source lines 62-72): exposes the wrapped value. -/
def DateTimeDefaultNow.deref {H : Int} (w : DateTimeDefaultNow H) : DateTime :=
  w.val

/-- `impl PartialEq<DateTime<Tz>> for DateTimeDefaultNow` (source lines
84-93): `self.0.eq(other)`. -/
def eq_wr {H : Int} (w : DateTimeDefaultNow H) (t : DateTime) : Bool :=
  DateTime.eqb w.val t

/-- `impl PartialEq<DateTimeDefaultNow> for DateTime<Tz>` (source lines
95-104): `self.eq(&other.0)`. -/
def eq_rw {H : Int} (t : DateTime) (w : DateTimeDefaultNow H) : Bool :=
  DateTime.eqb t w.val

/-- Derived `PartialEq` between two wrappers (source line 19): compares the
single wrapped field. -/
def eq_ww {H : Int} (a b : DateTimeDefaultNow H) : Bool :=
  DateTime.eqb a.val b.val

/-- `impl PartialOrd<DateTime<Tz>> for DateTimeDefaultNow` (source lines
106-115): `self.0.partial_cmp(other)`. -/
def cmp_wr {H : Int} (w : DateTimeDefaultNow H) (t : DateTime) : Option Ordering :=
  DateTime.cmpRaw w.val t

/-- `impl PartialOrd<DateTimeDefaultNow> for DateTime<Tz>` (source lines
117-129): `self.partial_cmp(&other.0)`. -/
def cmp_rw {H : Int} (t : DateTime) (w : DateTimeDefaultNow H) : Option Ordering :=
  DateTime.cmpRaw t w.val

/-- Derived `PartialOrd` between two wrappers (source line 19): compares the
single wrapped field. -/
def cmp_ww {H : Int} (a b : DateTimeDefaultNow H) : Option Ordering :=
  DateTime.cmpRaw a.val b.val

/-- `Utc::now()` at clock reading `now` (nanoseconds since the epoch):
the instant, at offset 0. -/
def Utc.now (now : Int) : DateTime :=
  ⟨now, 0⟩

/-- `Local::now()` at clock reading `now`, with process-local offset
`localOff` seconds east of UTC. -/
def Local.now (now localOff : Int) : DateTime :=
  ⟨now, localOff⟩

/-- `impl Default for DateTimeDefaultNow<Utc, 0>` in a non-test build
(source lines 50-54): `Self(Utc::now())`. -/
def default_utc (now : Int) : DateTimeDefaultNow 0 :=
  ⟨Utc.now now⟩

/-- `impl Default for DateTimeDefaultNow<Local, 0>` in a non-test build
(source lines 34-38): `Self(Local::now())`. -/
def default_local (now localOff : Int) : DateTimeDefaultNow 0 :=
  ⟨Local.now now localOff⟩

/-- Wraparound (two-complement) mapping of a mathematical integer into `i32`. -/
def i32_wrap (x : Int) : Int :=
  (x + 2147483648) % 4294967296 - 2147483648

/-- `i32` multiplication with release-profile (wrapping) overflow semantics. -/
def mul32 (a b : Int) : Int :=
  i32_wrap (a * b)

/-- `i32` multiplication with debug-profile semantics: overflow panics
(`none`). -/
def checked_mul_i32 (a b : Int) : Option Int :=
  if -(2 ^ 31) ≤ a * b ∧ a * b ≤ 2 ^ 31 - 1 then some (a * b) else none

/-- chrono `FixedOffset::east_opt(secs)`: `Some` iff
`-86_400 < secs && secs < 86_400`.  `FixedOffset::east` panics (`none`
here) otherwise. -/
def FixedOffset.east_opt (secs : Int) : Option Int :=
  if -86400 < secs ∧ secs < 86400 then some secs else none

/-- `impl<const OFFSET_HOURS: i32> Default for
DateTimeDefaultNow<FixedOffset, OFFSET_HOURS>` (source lines 25-32):
`Self(DateTimeDefaultNow::<Utc>::default().with_timezone(&FixedOffset::east(OFFSET_HOURS * 3600)))`,
with the multiplication in wrapping (release-profile) `i32` semantics.
`none` models the panic of `FixedOffset::east`. -/
def default_fixed (OFFSET_HOURS now : Int) :
    Option (DateTimeDefaultNow OFFSET_HOURS) :=
  (FixedOffset.east_opt (mul32 OFFSET_HOURS 3600)).map fun off =>
    ⟨DateTime.with_timezone (default_utc now).val off⟩

/-- The same fixed-offset `default`, but with the debug-profile (checked)
`i32` multiplication: an overflowing `OFFSET_HOURS * 3600` panics (`none`)
before `FixedOffset::east` is reached. -/
def default_fixed_checked (OFFSET_HOURS now : Int) :
    Option (DateTimeDefaultNow OFFSET_HOURS) :=
  (checked_mul_i32 OFFSET_HOURS 3600).bind fun secs =>
    (FixedOffset.east_opt secs).map fun off =>
      ⟨DateTime.with_timezone (default_utc now).val off⟩

/-- The frozen test clock literal `"2022/10/10 23:40:11.695164300"`
(source line 6), parsed with `"%Y/%m/%d %H:%M:%S%.9f"` into civil fields. -/
def test_NOW : NaiveDateTime :=
  ⟨2022, 10, 10, 23, 40, 11, 695164300⟩

/-- `Utc.datetime_from_str`: the parsed civil fields, read as UTC civil time;
fails iff a field is out of range. -/
def Utc.datetime_from_str (n : NaiveDateTime) : Option DateTime :=
  if n.valid then some ⟨n.toNanos, 0⟩ else none

/-- `Local.datetime_from_str`: the parsed civil fields, read as local civil
time at offset `localOff`, so the absolute instant is the naive reading
minus the offset; fails iff a field is out of range. -/
def Local.datetime_from_str (n : NaiveDateTime) (localOff : Int) : Option DateTime :=
  if n.valid then some ⟨n.toNanos - localOff * 1000000000, localOff⟩ else none

/-- `impl Default for DateTimeDefaultNow<Utc, 0>` in a test build (source
lines 56-59): parse the frozen literal and `unwrap`. -/
def default_utc_test : Option (DateTimeDefaultNow 0) :=
  (Utc.datetime_from_str test_NOW).map fun dt => ⟨dt⟩

/-- `impl Default for DateTimeDefaultNow<Local, 0>` in a test build (source
lines 40-47): parse the frozen literal as local civil time and `unwrap`. -/
def default_local_test (localOff : Int) : Option (DateTimeDefaultNow 0) :=
  (Local.datetime_from_str test_NOW localOff).map fun dt => ⟨dt⟩

/-- The fixed-offset `default` (source lines 25-32) in a test build: the UTC
default it calls is the frozen-literal one. -/
def default_fixed_test (OFFSET_HOURS : Int) :
    Option (DateTimeDefaultNow OFFSET_HOURS) :=
  default_utc_test.bind fun u =>
    (FixedOffset.east_opt (mul32 OFFSET_HOURS 3600)).map fun off =>
      ⟨DateTime.with_timezone u.val off⟩

/-- The three zone tags the crate instantiates. -/
inductive Zone
  | utc
  | localZone
  | fixedZone
deriving DecidableEq

/-- Which `(zone, OFFSET_HOURS)` instantiations carry an `impl Default` in
the source: `<Utc, 0>` (line 50), `<Local, 0>` (line 34), and
`<FixedOffset, OFFSET_HOURS>` for every `OFFSET_HOURS` (line 25). -/
def hasDefaultImpl : Zone → Int → Bool
  | Zone.utc, h => h == 0
  | Zone.localZone, h => h == 0
  | Zone.fixedZone, _ => true

/-- `impl From` (source line 74) is generic over `Tz` and `OFFSET_HOURS`. -/
def hasFromImpl : Zone → Int → Bool := fun _ _ => true

/-- `impl Deref` (source line 62) is generic over `Tz` and `OFFSET_HOURS`. -/
def hasDerefImpl : Zone → Int → Bool := fun _ _ => true

/-- The `PartialEq` impls (source lines 84-104) are generic over `Tz` and
`OFFSET_HOURS`. -/
def hasEqImpl : Zone → Int → Bool := fun _ _ => true

/-- The `PartialOrd` impls (source lines 106-129) are generic over `Tz` and
`OFFSET_HOURS`. -/
def hasOrdImpl : Zone → Int → Bool := fun _ _ => true

/-- `i32_wrap` is the identity on the representable range of `i32`. -/
theorem i32_wrap_eq_self {x : Int} (hlo : -2147483648 ≤ x) (hhi : x < 2147483648) :
    i32_wrap x = x := by
  unfold i32_wrap
  rw [Int.emod_eq_of_lt (by omega) (by omega)]
  omega

/-- C1: for every `OFFSET_HOURS` whose second-offset `OFFSET_HOURS * 3600`
is representable as a fixed offset (strictly between -86400 and 86400
seconds), the fixed-offset `default()` equals the UTC default re-expressed
at an offset of `OFFSET_HOURS * 3600` seconds east of UTC, and that
re-expression denotes the same absolute instant as the UTC default. -/
theorem fixed_default_is_utc_reexpressed (H now : Int)
    (h1 : -86400 < H * 3600) (h2 : H * 3600 < 86400) :
    default_fixed H now
      = some ⟨DateTime.with_timezone (default_utc now).val (H * 3600)⟩ ∧
    (DateTime.with_timezone (default_utc now).val (H * 3600)).instant
      = (default_utc now).val.instant := by
  constructor
  · unfold default_fixed mul32
    rw [i32_wrap_eq_self (by omega) (by omega)]
    unfold FixedOffset.east_opt
    rw [if_pos ⟨h1, h2⟩]
    rfl
  · rfl

/-- C1 witness: the theorem instantiated at `OFFSET_HOURS = 9` and the
frozen-clock instant. -/
theorem fixed_default_is_utc_reexpressed_witness :
    (-86400 < (9 : Int) * 3600 ∧ (9 : Int) * 3600 < 86400) ∧
    (default_fixed 9 1665445211695164300
        = some ⟨DateTime.with_timezone (default_utc 1665445211695164300).val (9 * 3600)⟩ ∧
      (DateTime.with_timezone (default_utc 1665445211695164300).val (9 * 3600)).instant
        = (default_utc 1665445211695164300).val.instant) :=
  ⟨by norm_num,
    fixed_default_is_utc_reexpressed 9 1665445211695164300 (by norm_num) (by norm_num)⟩

/-- C2 counterexample: with the process-local offset +09:00 (32400 seconds
east), the test-build `Local` default exists but is NOT equal (by the chrono
`DateTime` equality, which compares absolute instants) to the frozen instant
2022-10-10T23:40:11.6951643Z re-expressed at that local offset: the source
parses the frozen literal as local civil time, which denotes a different
absolute instant whenever the local offset is nonzero. -/
theorem local_test_default_differs_from_frozen_instant :
    ((default_local_test 32400).map fun w =>
        DateTime.eqb w.val ⟨1665445211695164300, 32400⟩)
      = some false := by decide

/-- C2 (amended): under the test-build frozen clock literal, the UTC
`default()` is exactly the frozen instant 2022-10-10T23:40:11.6951643Z (at
offset 0); the `Local` `default()` is the frozen civil fields interpreted in
the process-local civil time, i.e. the instant `frozen - localOff` at offset
`localOff` (the same absolute instant only when `localOff = 0`); and the
fixed-offset `default()` with `OFFSET_HOURS = 9` is the frozen instant at
offset +09:00:00 (32400 seconds). -/
theorem test_build_default_values (localOff : Int) :
    default_utc_test = some ⟨⟨1665445211695164300, 0⟩⟩ ∧
    default_local_test localOff
      = some ⟨⟨1665445211695164300 - localOff * 1000000000, localOff⟩⟩ ∧
    default_fixed_test 9 = some ⟨⟨1665445211695164300, 32400⟩⟩ := by
  refine ⟨by decide, ?_, by decide⟩
  unfold default_local_test Local.datetime_from_str
  rw [if_pos (by decide : test_NOW.valid)]
  have h : NaiveDateTime.toNanos test_NOW = 1665445211695164300 := by decide
  rw [h]
  rfl

/-- C3 counterexample: `OFFSET_HOURS = 1193046` has a mathematical
second-offset `1193046 * 3600 = 4294965600`, far outside the representable
fixed-offset range, yet under the release-profile (wrapping) `i32`
semantics the multiplication wraps to -1696, which is in range, so
`default()` silently succeeds with a wrapped offset instead of failing. -/
theorem fixed_default_overflow_wraps_silently :
    (86400 ≤ (1193046 : Int) * 3600) ∧
    default_fixed 1193046 0 = some ⟨⟨0, -1696⟩⟩ := by decide

/-- C3 (amended): for every `OFFSET_HOURS` whose second-offset computation
does not overflow `i32` (that is, `-596523 ≤ OFFSET_HOURS ≤ 596523`) but
whose second-offset lies outside the representable fixed-offset range,
the fixed-offset `default()` fails abruptly (an uncaught
`FixedOffset::east` panic, modelled by `none`) and never silently wraps or
truncates.  When the multiplication itself overflows `i32`, debug builds
panic at the multiplication, but release builds wrap and can silently
succeed (see the counterexample). -/
theorem fixed_default_out_of_range_panics (H now : Int)
    (hlo : -596523 ≤ H) (hhi : H ≤ 596523)
    (hout : H * 3600 ≤ -86400 ∨ 86400 ≤ H * 3600) :
    default_fixed H now = none := by
  unfold default_fixed mul32
  rw [i32_wrap_eq_self (by omega) (by omega)]
  unfold FixedOffset.east_opt
  rw [if_neg (by omega)]
  rfl

/-- C3 witness: the theorem instantiated at `OFFSET_HOURS = 100`
(+100 hours, 360000 seconds, out of range): `default()` fails. -/
theorem fixed_default_out_of_range_panics_witness :
    (-596523 ≤ (100 : Int) ∧ (100 : Int) ≤ 596523 ∧ 86400 ≤ (100 : Int) * 3600) ∧
    default_fixed 100 0 = none :=
  ⟨by norm_num,
    fixed_default_out_of_range_panics 100 0 (by norm_num) (by norm_num)
      (Or.inr (by norm_num))⟩

/-- C4: for every `OFFSET_HOURS` and every timestamp `t`, `from(t)` wraps
`t` verbatim (the stored field is exactly `t`) and the `Deref` delegation
exposes exactly `t`; the conversion is a pure function of `t` (it takes no
clock argument) and is total (no `Option`). -/
theorem from_wraps_verbatim (H : Int) (t : DateTime) :
    (from_datetime H t).val = t ∧ (from_datetime H t).deref = t :=
  ⟨rfl, rfl⟩

/-- C5: for every `OFFSET_HOURS` and every raw timestamp `x`, converting
`x` into the wrapper via `from` and converting back to the raw timestamp
(via the transparent `Deref` delegation, the only conversion back the
source provides) yields a value equal to `x`, both propositionally and
under the chrono `DateTime` equality. -/
theorem from_round_trip (H : Int) (x : DateTime) :
    (from_datetime H x).deref = x ∧
    DateTime.eqb (from_datetime H x).deref x = true := by
  refine ⟨rfl, ?_⟩
  simp [DateTimeDefaultNow.deref, from_datetime, DateTime.eqb]

/-- C6: for every wrapper `w` and raw timestamp `t`, the wrapper-vs-raw and
raw-vs-wrapper equality operators agree (equality is symmetric), and the
wrapper-vs-raw operator holds exactly when the wrapped value equals `t`
under the chrono `DateTime` equality (strict delegation). -/
theorem eq_symmetric_and_delegates (H : Int) (w : DateTimeDefaultNow H) (t : DateTime) :
    eq_wr w t = eq_rw t w ∧ (eq_wr w t = true ↔ DateTime.eqb w.val t = true) := by
  constructor
  · unfold eq_wr eq_rw DateTime.eqb
    by_cases h : w.val.instant = t.instant
    · rw [h]
    · rw [beq_eq_false_iff_ne.mpr h, beq_eq_false_iff_ne.mpr (Ne.symm h)]
  · exact Iff.rfl

/-- C7: for every `OFFSET_HOURS` and timestamps `a`, `b`, the `a <= b`
relation computed through each of the wrapper orderings
(wrapper-vs-wrapper, wrapper-vs-raw, raw-vs-wrapper) coincides with the
one computed directly on the underlying raw timestamps. -/
theorem ordering_consistent_with_raw (H : Int) (a b : DateTime) :
    le_of_cmp (cmp_ww (from_datetime H a) (from_datetime H b))
      = le_of_cmp (DateTime.cmpRaw a b) ∧
    le_of_cmp (cmp_wr (from_datetime H a) b) = le_of_cmp (DateTime.cmpRaw a b) ∧
    le_of_cmp (cmp_rw a (from_datetime H b)) = le_of_cmp (DateTime.cmpRaw a b) :=
  ⟨rfl, rfl, rfl⟩

/-- C8: the UTC and Local default constructions have no error conditions:
in the test build the parse-and-unwrap of the frozen clock literal succeeds
for UTC and for every process-local offset (the `unwrap` never panics); the
non-test constructions are total functions of the clock by definition.  In
contrast the fixed-offset default can fail (e.g. at `OFFSET_HOURS = 100`). -/
theorem utc_local_defaults_never_fail :
    (default_utc_test).isSome = true ∧
    (∀ localOff : Int, (default_local_test localOff).isSome = true) ∧
    default_fixed 100 0 = none := by
  refine ⟨by decide, ?_, by decide⟩
  intro localOff
  unfold default_local_test Local.datetime_from_str
  rw [if_pos (by decide : test_NOW.valid)]
  rfl

/-- C9: the source declares an `impl Default` for the UTC and Local zone
tags only at `OFFSET_HOURS = 0` (and for the fixed-offset tag at every
`OFFSET_HOURS`), while the `From`, `Deref`, `PartialEq` and `PartialOrd`
impls are available for every zone tag and every `OFFSET_HOURS`. -/
theorem default_impl_only_at_offset_zero :
    (∀ h : Int, hasDefaultImpl Zone.utc h = true ↔ h = 0) ∧
    (∀ h : Int, hasDefaultImpl Zone.localZone h = true ↔ h = 0) ∧
    (∀ h : Int, hasDefaultImpl Zone.fixedZone h = true) ∧
    (∀ z : Zone, ∀ h : Int,
      hasFromImpl z h = true ∧ hasDerefImpl z h = true ∧
      hasEqImpl z h = true ∧ hasOrdImpl z h = true) := by
  refine ⟨?_, ?_, ?_, ?_⟩
  · intro h; simp [hasDefaultImpl]
  · intro h; simp [hasDefaultImpl]
  · intro h; rfl
  · intro z h; exact ⟨rfl, rfl, rfl, rfl⟩

/-- C10: the `OFFSET_HOURS` parameter influences none of the delegation
operations: for any two offset parameters `h1`, `h2` and any timestamps
`t`, `u`, the `from` conversion, the `Deref` accessor, the two mixed
equality operators and the two mixed comparison operators behave
identically at `h1` and at `h2` — each depends only on the wrapped
timestamp. -/
theorem delegation_ignores_offset_hours (h1 h2 : Int) (t u : DateTime) :
    (from_datetime h1 t).val = (from_datetime h2 t).val ∧
    (from_datetime h1 t).deref = (from_datetime h2 t).deref ∧
    eq_wr (from_datetime h1 t) u = eq_wr (from_datetime h2 t) u ∧
    eq_rw u (from_datetime h1 t) = eq_rw u (from_datetime h2 t) ∧
    cmp_wr (from_datetime h1 t) u = cmp_wr (from_datetime h2 t) u ∧
    cmp_rw u (from_datetime h1 t) = cmp_rw u (from_datetime h2 t) :=
  ⟨rfl, rfl, rfl, rfl, rfl, rfl⟩

end DatetimeDefault
